import Mathlib

/-!
Verification of `FME/masking_server.py`, a minimal local HTTP server that
serves a bundled single-page application (`Masking.html`), one static script
(`fits.js`) and one user-specified target file (`/file`).

The embedding is shallow: the filesystem is a function from path strings to a
file state (missing, existing-but-unreadable, or readable with contents),
request handling is a pure function from server state, filesystem and request
target to a `Response`, and the server lifecycle (`run_server` / `main`) is a
function returning `Except String RunningServer` where `Except.error`
models the Python exception that aborts the process with a non-zero exit.
Bytes are modelled as `Nat`s; response bodies are byte lists.
-/

namespace MaskingServer

/-- State of one path on disk at request time.
`missing` : `Path.exists()` is false (and any read raises).
`unreadable` : `Path.exists()` is true but `read_bytes()` raises
(e.g. permission denied).
`readable bytes` : `Path.exists()` is true and `read_bytes()` returns
`bytes`. -/
inductive FileState where
  | missing
  | unreadable
  | readable (bytes : List Nat)
deriving DecidableEq, Repr

/-- The filesystem as seen at one instant: each path string maps to its
state.  Distinct instants of the process lifetime are modelled by passing
different `FS` values (the file may change between startup and a request). -/
def FS : Type := String → FileState

/-- The attributes the handler reads from `self.server`, set by `run_server`:
`httpd.file_path`, `httpd.html_path`, `httpd.static_dir`. -/
structure ServerState where
  file_path : String
  html_path : String
  static_dir : String
deriving DecidableEq, Repr

/-- An HTTP response as assembled by the handler: status code, reason
phrase, the headers sent via `send_header` (in order), and the body bytes
written to `wfile`.  For `send_error` responses the stdlib's generated HTML
error page body and its headers are abstracted away as empty: no claim
concerns error bodies, only statuses and reason phrases. -/
structure Response where
  status : Nat
  reason : String
  headers : List (String × String)
  body : List Nat
deriving DecidableEq, Repr

/-- `BaseHTTPRequestHandler.send_error(code, message)`. -/
def sendError (code : Nat) (message : String) : Response :=
  { status := code, reason := message, headers := [], body := [] }

/-- Look a header up by name (first occurrence, as a client would). -/
def Response.header (r : Response) (k : String) : Option String :=
  List.lookup k r.headers

/-- `pathlib` `/`-join, as in `self.server.static_dir / name` and
`Path(__file__).with_name("Masking.html")` (the joined `name` here is always
a bare relative file name, so no absolute-path replacement logic is
needed). -/
def pathJoin (dir name : String) : String := dir ++ "/" ++ name

/-- `Path.name`: the final path component (the part after the last `/`;
the whole string when it has no `/`). -/
def pathName (p : String) : String :=
  String.mk ((p.toList.reverse.takeWhile (fun c => c != '/')).reverse)

/-- `urlsplit` netloc handling: a target starting with `//` has its
network-location part (up to the next `/`, `?` or `#`) stripped before the
path is read.  Request targets never carry a scheme, so scheme parsing is
not modelled. -/
def dropNetloc (cs : List Char) : List Char :=
  match cs with
  | c1 :: c2 :: rest =>
      if c1 = '/' ∧ c2 = '/' then rest.dropWhile (fun c => c != '/' && c != '?' && c != '#')
      else cs
  | _ => cs

/-- `urllib.parse._splitparams`: drop a `;params` suffix from the final
path segment (everything from the first `;` at or after the last `/`). -/
def stripParams (cs : List Char) : List Char :=
  let r := cs.reverse
  (r.dropWhile (fun c => c != '/')).reverse
    ++ (r.takeWhile (fun c => c != '/')).reverse.takeWhile (fun c => c != ';')

/-- The path component of `urllib.parse.urlparse(target)`: strip the netloc
(if any), cut at the first `#` (fragment) or `?` (query), and drop a
`;params` suffix from the final path segment. -/
def urlPathOf (target : String) : String :=
  String.mk (stripParams ((dropNetloc target.toList).takeWhile (fun c => c != '#' && c != '?')))

/-- `MaskingRequestHandler._serve_masking_html`: read `self.server.html_path`;
any failure (missing or unreadable) is caught and answered with
`send_error(500, "Failed to load Masking.html")`; otherwise 200 with the
bytes and the three headers, in source order. -/
def serve_masking_html (srv : ServerState) (fs : FS) : Response :=
  match fs srv.html_path with
  | FileState.readable data =>
      { status := 200, reason := "OK",
        headers := [("Content-Type", "text/html; charset=utf-8"),
                    ("Cache-Control", "no-store"),
                    ("Content-Length", toString data.length)],
        body := data }
  | _ => sendError 500 "Failed to load Masking.html"

/-- `MaskingRequestHandler._serve_static_file(name, content_type)`: join
`static_dir / name`; if the file does not exist, 404 `"Not Found"`; if the
read raises (exists but unreadable), 500 `"Failed to load static file"`;
otherwise 200 with the bytes and the three headers, in source order. -/
def serve_static_file (srv : ServerState) (fs : FS) (name content_type : String) : Response :=
  match fs (pathJoin srv.static_dir name) with
  | FileState.missing => sendError 404 "Not Found"
  | FileState.unreadable => sendError 500 "Failed to load static file"
  | FileState.readable data =>
      { status := 200, reason := "OK",
        headers := [("Content-Type", content_type),
                    ("Cache-Control", "no-store"),
                    ("Content-Length", toString data.length)],
        body := data }

/-- `MaskingRequestHandler._serve_fits_file`: if `self.server.file_path`
does not exist, 404 `"File not found"`; if the read raises (exists but
unreadable), 500 `"Failed to read file"`; otherwise 200 with content type
`application/octet-stream`, the caching, length and file-name headers in
source order, and the file bytes as body.  (`if not file_path` in the
source can never fire: `run_server` always sets a `Path`, and `Path`
objects are always truthy.) -/
def serve_fits_file (srv : ServerState) (fs : FS) : Response :=
  match fs srv.file_path with
  | FileState.missing => sendError 404 "File not found"
  | FileState.unreadable => sendError 500 "Failed to read file"
  | FileState.readable data =>
      { status := 200, reason := "OK",
        headers := [("Content-Type", "application/octet-stream"),
                    ("Cache-Control", "no-store"),
                    ("Content-Length", toString data.length),
                    ("X-Masking-File-Name", pathName srv.file_path)],
        body := data }

/-- `MaskingRequestHandler.do_GET`: route on the path component of the
request target, in source order, falling through to
`send_error(404, "Not Found")`. -/
def do_GET (srv : ServerState) (fs : FS) (target : String) : Response :=
  if urlPathOf target = "/fits.js" then
    serve_static_file srv fs "fits.js" "application/javascript; charset=utf-8"
  else if urlPathOf target = "/file" then
    serve_fits_file srv fs
  else if urlPathOf target = "/" ∨ urlPathOf target = "/index.html" then
    serve_masking_html srv fs
  else
    sendError 404 "Not Found"

/-- `MaskingRequestHandler.log_message`: overridden to return without
printing, so a handled request writes nothing to stderr/stdout.  The result
is the list of lines emitted — always empty. -/
def log_message (_fmt : String) (_args : List String) : List String := []

/-- `BaseHTTPRequestHandler` method dispatch (`handle_one_request` in the
stdlib): the command is looked up as a `do_<METHOD>` attribute; the class
defines only `do_GET`, so every other method is answered with
`send_error(501, ...)` and no resource handler runs. -/
def handle_one_request (srv : ServerState) (fs : FS) (method target : String) : Response :=
  if method = "GET" then do_GET srv fs target
  else sendError 501 ("Unsupported method (" ++ method ++ ")")

/-- The observable result of a successful `run_server` startup: where the
socket was bound, what was printed, whether a browser launch was requested,
the delay (in seconds) after which the one-shot background thread calls
`httpd.shutdown()` — `none` when no shutdown thread is started — and the
state the request handler sees. -/
structure RunningServer where
  bound_host : String
  bound_port : Nat
  stdout_lines : List String
  browser_opened : Bool
  shutdown_after : Option Int
  state : ServerState
deriving DecidableEq, Repr

/-- `run_server(file_path, auto_open, timeout, port)`.  `script_dir` is the
directory holding `masking_server.py` (`Path(__file__)`), so the bundled
shell is `script_dir/Masking.html` and `static_dir` is its parent,
`script_dir` itself.  `os_port` is the port the OS assigns when binding
port 0 (with a fixed nonzero port, `server_address[1]` is that port).
A raised `FileNotFoundError` is `Except.error`; bind failures are outside
the model (the claims under verification assume a successful bind). -/
def run_server (fs : FS) (script_dir : String) (file_path : String)
    (auto_open : Bool) (timeout : Int) (port : Nat) (os_port : Nat) :
    Except String RunningServer :=
  let html_path := pathJoin script_dir "Masking.html"
  match fs html_path with
  | FileState.missing =>
      Except.error ("Masking.html not found at " ++ html_path)
  | _ =>
      let bound := if port = 0 then os_port else port
      Except.ok
        { bound_host := "127.0.0.1"
          bound_port := bound
          stdout_lines := ["http://127.0.0.1:" ++ toString bound ++ "/?open=1"]
          browser_opened := auto_open
          shutdown_after := if timeout > 0 then some timeout else none
          state := { file_path := file_path
                     html_path := html_path
                     static_dir := script_dir } }

/-- `main()` after argument parsing: `resolved_file` is the target path,
already home-expanded and resolved to an absolute path
(`Path(os.path.expanduser(args.file)).resolve()` is glue outside the
model); if it does not exist, `FileNotFoundError("File not found: ...")`
aborts the process, otherwise `run_server` is called. -/
def main (fs : FS) (script_dir : String) (resolved_file : String)
    (auto_open : Bool) (timeout : Int) (port : Nat) (os_port : Nat) :
    Except String RunningServer :=
  match fs resolved_file with
  | FileState.missing => Except.error ("File not found: " ++ resolved_file)
  | _ => run_server fs script_dir resolved_file auto_open timeout port os_port

/-- `true` iff startup succeeded (the process reached `serve_forever`
rather than aborting with an exception). -/
def startedOk (e : Except String RunningServer) : Bool :=
  match e with
  | Except.ok _ => true
  | Except.error _ => false

/-! Concrete fixtures used to witness the universally quantified theorems
below on explicit inputs. -/

/-- A sample handler state: target file `/data/a.fits`, application shell
`/app/Masking.html`, static assets in `/app`. -/
def wSrv : ServerState :=
  { file_path := "/data/a.fits", html_path := "/app/Masking.html", static_dir := "/app" }

/-- A sample filesystem on which the target file, the shell and the script
are all readable. -/
def wFs : FS := fun p =>
  if p = "/data/a.fits" then FileState.readable [1, 2, 3]
  else if p = "/app/Masking.html" then FileState.readable [10, 11]
  else if p = "/app/fits.js" then FileState.readable [7]
  else FileState.missing

/-- The `RunningServer` that `run_server wFs "/app" "/data/a.fits" false
5 7070 5000` produces. -/
def wRun5 : RunningServer :=
  { bound_host := "127.0.0.1"
    bound_port := 7070
    stdout_lines := ["http://127.0.0.1:7070/?open=1"]
    browser_opened := false
    shutdown_after := some 5
    state := { file_path := "/data/a.fits", html_path := "/app/Masking.html",
               static_dir := "/app" } }

/-- A filesystem on which the target file exists but cannot be read. -/
def c2Fs : FS := fun p =>
  if p = "/data/a.fits" then FileState.unreadable else FileState.missing

/-- A filesystem on which the shell is fine but the target file exists
and is unreadable. -/
def c6Fs : FS := fun p =>
  if p = "/app/Masking.html" then FileState.readable [1]
  else if p = "/data/locked.fits" then FileState.unreadable
  else FileState.missing

/-- A filesystem with no readable file at all. -/
def emptyFs : FS := fun _ => FileState.missing

/-! Routing helper lemmas. -/

theorem takeWhile_append_stop {p : Char → Bool} {x : Char} (hx : p x = false)
    (l₁ l₂ : List Char) : (l₁ ++ x :: l₂).takeWhile p = l₁.takeWhile p := by
  induction l₁ with
  | nil => simp [List.takeWhile_cons, hx]
  | cons a t ih =>
      simp only [List.cons_append, List.takeWhile_cons]
      cases p a <;> simp [ih]

theorem dropWhile_append_stop {p : Char → Bool} {x : Char} (hx : p x = false)
    (l₁ l₂ : List Char) : (l₁ ++ x :: l₂).dropWhile p = l₁.dropWhile p ++ x :: l₂ := by
  induction l₁ with
  | nil => simp [List.dropWhile_cons, hx]
  | cons a t ih =>
      simp only [List.cons_append, List.dropWhile_cons]
      cases p a <;> simp [ih]

theorem dropNetloc_append_query (l₁ l₂ : List Char) :
    dropNetloc (l₁ ++ '?' :: l₂) = dropNetloc l₁ ++ '?' :: l₂ := by
  match l₁ with
  | [] =>
      cases l₂ with
      | nil => rfl
      | cons c t =>
          have h : ¬('?' = '/' ∧ c = '/') := by rintro ⟨h, -⟩; exact absurd h (by decide)
          simp [dropNetloc, h]
  | [a] =>
      have h : ¬(a = '/' ∧ '?' = '/') := by rintro ⟨-, h⟩; exact absurd h (by decide)
      simp [dropNetloc, h]
  | a :: b :: t =>
      simp only [List.cons_append, dropNetloc]
      by_cases h : a = '/' ∧ b = '/'
      · rw [if_pos h, if_pos h]
        exact dropWhile_append_stop (by decide) t l₂
      · rw [if_neg h, if_neg h]
        simp

/-- Appending `?query` to a request target never changes the parsed path
component (the query split happens at the first `?`). -/
theorem urlPathOf_append_query (P Q : String) :
    urlPathOf (P ++ "?" ++ Q) = urlPathOf P := by
  unfold urlPathOf
  have hdata : (P ++ "?" ++ Q).toList = P.toList ++ '?' :: Q.toList := by
    simp [String.toList, String.data_append]
  rw [hdata, dropNetloc_append_query, takeWhile_append_stop (by decide)]

theorem do_GET_file (srv : ServerState) (fs : FS) :
    do_GET srv fs "/file" = serve_fits_file srv fs := by
  have h : urlPathOf "/file" = "/file" := rfl
  simp [do_GET, h]

theorem do_GET_root (srv : ServerState) (fs : FS) :
    do_GET srv fs "/" = serve_masking_html srv fs := by
  have h : urlPathOf "/" = "/" := rfl
  simp [do_GET, h]

theorem do_GET_index (srv : ServerState) (fs : FS) :
    do_GET srv fs "/index.html" = serve_masking_html srv fs := by
  have h : urlPathOf "/index.html" = "/index.html" := rfl
  simp [do_GET, h]

theorem do_GET_fitsjs (srv : ServerState) (fs : FS) :
    do_GET srv fs "/fits.js" =
      serve_static_file srv fs "fits.js" "application/javascript; charset=utf-8" := by
  have h : urlPathOf "/fits.js" = "/fits.js" := rfl
  simp [do_GET, h]

/-- Claim C1: for every server state and filesystem on which the target
file is readable at request time, `GET /file` answers 200 with content type
`application/octet-stream`, a body byte-for-byte equal to the file's
current contents, and an `X-Masking-File-Name` header equal to the file's
base name. -/
theorem C1_get_file_serves_target_bytes (srv : ServerState) (fs : FS) (data : List Nat)
    (h : fs srv.file_path = FileState.readable data) :
    (do_GET srv fs "/file").status = 200 ∧
    (do_GET srv fs "/file").header "Content-Type" = some "application/octet-stream" ∧
    (do_GET srv fs "/file").body = data ∧
    (do_GET srv fs "/file").header "X-Masking-File-Name" = some (pathName srv.file_path) := by
  rw [do_GET_file]
  simp [serve_fits_file, h, Response.header, List.lookup]

/-- Witness for C1 on the concrete fixture filesystem. -/
theorem C1_witness :
    wFs wSrv.file_path = FileState.readable [1, 2, 3] ∧
    ((do_GET wSrv wFs "/file").status = 200 ∧
     (do_GET wSrv wFs "/file").header "Content-Type" = some "application/octet-stream" ∧
     (do_GET wSrv wFs "/file").body = [1, 2, 3] ∧
     (do_GET wSrv wFs "/file").header "X-Masking-File-Name" = some (pathName wSrv.file_path)) :=
  ⟨by decide, C1_get_file_serves_target_bytes wSrv wFs [1, 2, 3] (by decide)⟩

/-- Claim C2 as stated is false: a target file that exists but is
unreadable at request time (the read raises) is answered with
`send_error(500, "Failed to read file")`, not 404 — only the
missing-file (`exists()` false) case gets 404.  Concretely, on `c2Fs`
the target file is unreadable and `GET /file` returns status 500. -/
theorem C2_counterexample :
    c2Fs wSrv.file_path = FileState.unreadable ∧
    (do_GET wSrv c2Fs "/file").status = 500 ∧
    ¬ (do_GET wSrv c2Fs "/file").status = 404 := by decide

/-- Claim C2 (amended): `GET /file` answers 404 `"File not found"` exactly
when the target file does not exist at request time — covering deletion
after startup — while a file that exists but cannot be read is answered
with 500 `"Failed to read file"`. -/
theorem C2_missing_file_404 :
    (∀ (srv : ServerState) (fs : FS), fs srv.file_path = FileState.missing →
        do_GET srv fs "/file" = sendError 404 "File not found") ∧
    (∀ (srv : ServerState) (fs : FS), fs srv.file_path = FileState.unreadable →
        do_GET srv fs "/file" = sendError 500 "Failed to read file") := by
  constructor <;> intro srv fs h <;> rw [do_GET_file] <;> simp [serve_fits_file, h]

/-- Witness for C2 (amended): on the empty filesystem the target is
missing and `GET /file` is exactly the 404 error. -/
theorem C2_witness :
    emptyFs wSrv.file_path = FileState.missing ∧
    do_GET wSrv emptyFs "/file" = sendError 404 "File not found" :=
  ⟨by decide, C2_missing_file_404.1 wSrv emptyFs (by decide)⟩

/-- Claim C3: every status-200 response of each of the three resource
handlers carries `Cache-Control: no-store` and a `Content-Length` equal to
the byte length of the body written. -/
theorem C3_success_has_no_store_and_exact_length (srv : ServerState) (fs : FS)
    (name content_type : String) :
    ((serve_masking_html srv fs).status = 200 →
        ("Cache-Control", "no-store") ∈ (serve_masking_html srv fs).headers ∧
        (serve_masking_html srv fs).header "Content-Length"
          = some (toString (serve_masking_html srv fs).body.length)) ∧
    ((serve_static_file srv fs name content_type).status = 200 →
        ("Cache-Control", "no-store") ∈ (serve_static_file srv fs name content_type).headers ∧
        (serve_static_file srv fs name content_type).header "Content-Length"
          = some (toString (serve_static_file srv fs name content_type).body.length)) ∧
    ((serve_fits_file srv fs).status = 200 →
        ("Cache-Control", "no-store") ∈ (serve_fits_file srv fs).headers ∧
        (serve_fits_file srv fs).header "Content-Length"
          = some (toString (serve_fits_file srv fs).body.length)) := by
  refine ⟨?_, ?_, ?_⟩ <;> intro h200
  · cases hf : fs srv.html_path <;>
      simp [serve_masking_html, hf, sendError, Response.header, List.lookup] at h200 ⊢
  · cases hf : fs (pathJoin srv.static_dir name) <;>
      simp [serve_static_file, hf, sendError, Response.header, List.lookup] at h200 ⊢
  · cases hf : fs srv.file_path <;>
      simp [serve_fits_file, hf, sendError, Response.header, List.lookup] at h200 ⊢

/-- Witness for C3 on the target-file handler at the concrete fixture. -/
theorem C3_witness :
    (serve_fits_file wSrv wFs).status = 200 ∧
    ("Cache-Control", "no-store") ∈ (serve_fits_file wSrv wFs).headers ∧
    (serve_fits_file wSrv wFs).header "Content-Length"
      = some (toString (serve_fits_file wSrv wFs).body.length) := by
  refine ⟨by decide, ?_, ?_⟩
  · exact ((C3_success_has_no_store_and_exact_length wSrv wFs "fits.js"
      "application/javascript; charset=utf-8").2.2 (by decide)).1
  · exact ((C3_success_has_no_store_and_exact_length wSrv wFs "fits.js"
      "application/javascript; charset=utf-8").2.2 (by decide)).2

/-- Claim C4: for every server state and filesystem, `GET /` and
`GET /index.html` produce literally identical responses, and whenever the
application shell is readable those responses are status 200 with the
shell's bytes as body. -/
theorem C4_root_and_index_identical :
    (∀ (srv : ServerState) (fs : FS), do_GET srv fs "/" = do_GET srv fs "/index.html") ∧
    (∀ (srv : ServerState) (fs : FS) (data : List Nat),
        fs srv.html_path = FileState.readable data →
        (do_GET srv fs "/").status = 200 ∧ (do_GET srv fs "/").body = data) := by
  constructor
  · intro srv fs
    rw [do_GET_root, do_GET_index]
  · intro srv fs data h
    rw [do_GET_root]
    simp [serve_masking_html, h]

/-- Witness for C4 on the concrete fixture. -/
theorem C4_witness :
    wFs wSrv.html_path = FileState.readable [10, 11] ∧
    do_GET wSrv wFs "/" = do_GET wSrv wFs "/index.html" ∧
    (do_GET wSrv wFs "/").status = 200 ∧ (do_GET wSrv wFs "/").body = [10, 11] :=
  ⟨by decide, C4_root_and_index_identical.1 wSrv wFs,
   (C4_root_and_index_identical.2 wSrv wFs [10, 11] (by decide)).1,
   (C4_root_and_index_identical.2 wSrv wFs [10, 11] (by decide)).2⟩

/-- Claim C5: routing depends only on the path component — appending any
query string to any target leaves the response unchanged — and every
request whose path component is outside `{/fits.js, /file, /, /index.html}`
is answered 404 `"Not Found"`. -/
theorem C5_routing_by_path_component :
    (∀ (srv : ServerState) (fs : FS) (P Q : String),
        do_GET srv fs (P ++ "?" ++ Q) = do_GET srv fs P) ∧
    (∀ (srv : ServerState) (fs : FS) (T : String),
        urlPathOf T ∉ (["/fits.js", "/file", "/", "/index.html"] : List String) →
        do_GET srv fs T = sendError 404 "Not Found") := by
  constructor
  · intro srv fs P Q
    simp only [do_GET, urlPathOf_append_query]
  · intro srv fs T h
    simp only [List.mem_cons, List.not_mem_nil, or_false, not_or] at h
    obtain ⟨h1, h2, h3, h4⟩ := h
    simp only [do_GET, if_neg h1, if_neg h2]
    rw [if_neg]
    rintro (h | h)
    · exact h3 h
    · exact h4 h

/-- Witness for C5: `/nope` is outside the routing table and is answered
404; a query string on `/file` does not change the response. -/
theorem C5_witness :
    urlPathOf "/nope" ∉ (["/fits.js", "/file", "/", "/index.html"] : List String) ∧
    do_GET wSrv wFs "/nope" = sendError 404 "Not Found" ∧
    do_GET wSrv wFs ("/file" ++ "?" ++ "x=1") = do_GET wSrv wFs "/file" :=
  ⟨by decide, C5_routing_by_path_component.2 wSrv wFs "/nope" (by decide),
   C5_routing_by_path_component.1 wSrv wFs "/file" "x=1"⟩

/-- Claim C6 as stated is false: startup validates only *existence* of the
target file (`Path.exists()`), not readability.  On `c6Fs` the target file
exists but is unreadable, `Masking.html` is present, and `main` starts the
server anyway instead of aborting. -/
theorem C6_counterexample :
    c6Fs "/data/locked.fits" = FileState.unreadable ∧
    startedOk (main c6Fs "/app" "/data/locked.fits" false 0 0 5000) = true := by decide

/-- Claim C6 (amended): at startup, if the target file path does not exist,
or (the target existing) the bundled `Masking.html` is missing, the process
aborts before serving with a descriptive error; an existing but unreadable
target passes the startup check. -/
theorem C6_startup_existence_checks :
    (∀ (fs : FS) (d f : String) (o : Bool) (t : Int) (p osp : Nat),
        fs f = FileState.missing →
        main fs d f o t p osp = Except.error ("File not found: " ++ f)) ∧
    (∀ (fs : FS) (d f : String) (o : Bool) (t : Int) (p osp : Nat),
        fs f ≠ FileState.missing →
        fs (pathJoin d "Masking.html") = FileState.missing →
        main fs d f o t p osp
          = Except.error ("Masking.html not found at " ++ pathJoin d "Masking.html")) := by
  constructor
  · intro fs d f o t p osp h
    simp [main, h]
  · intro fs d f o t p osp hf hh
    cases hfs : fs f with
    | missing => exact absurd hfs hf
    | unreadable => simp [main, hfs, run_server, hh]
    | readable data => simp [main, hfs, run_server, hh]

/-- Witness for C6 (amended): with no file present, `main` aborts with the
`File not found` message. -/
theorem C6_witness :
    emptyFs "/data/a.fits" = FileState.missing ∧
    main emptyFs "/app" "/data/a.fits" false 0 0 5000
      = Except.error ("File not found: " ++ "/data/a.fits") :=
  ⟨by decide,
   C6_startup_existence_checks.1 emptyFs "/app" "/data/a.fits" false 0 0 5000 (by decide)⟩

/-- Claim C7: on successful startup exactly one line is printed — the URL
`http://127.0.0.1:<resolved port>/?open=1` — per-request logging emits
nothing, and a fixed nonzero configured port N is the resolved port. -/
theorem C7_stdout_single_url_line :
    (∀ (fs : FS) (d f : String) (o : Bool) (t : Int) (p osp : Nat) (run : RunningServer),
        run_server fs d f o t p osp = Except.ok run →
        run.stdout_lines = ["http://127.0.0.1:" ++ toString run.bound_port ++ "/?open=1"]) ∧
    (∀ fmt args, log_message fmt args = []) ∧
    (∀ (fs : FS) (d f : String) (o : Bool) (t : Int) (osp N : Nat) (run : RunningServer),
        N ≠ 0 →
        run_server fs d f o t N osp = Except.ok run → run.bound_port = N) := by
  refine ⟨?_, fun _ _ => rfl, ?_⟩
  · intro fs d f o t p osp run h
    rw [run_server] at h
    cases hfs : fs (pathJoin d "Masking.html") <;> rw [hfs] at h
    · cases h
    · cases h; rfl
    · cases h; rfl
  · intro fs d f o t osp N run hN h
    rw [run_server] at h
    cases hfs : fs (pathJoin d "Masking.html") <;> rw [hfs] at h
    · cases h
    · cases h; simp [if_neg hN]
    · cases h; simp [if_neg hN]

/-- Witness for C7 on a concrete startup with fixed port 7070. -/
theorem C7_witness :
    run_server wFs "/app" "/data/a.fits" false 5 7070 5000 = Except.ok wRun5 ∧
    wRun5.stdout_lines = ["http://127.0.0.1:" ++ toString wRun5.bound_port ++ "/?open=1"] ∧
    (7070 : Nat) ≠ 0 ∧ wRun5.bound_port = 7070 :=
  ⟨rfl,
   C7_stdout_single_url_line.1 wFs "/app" "/data/a.fits" false 5 7070 5000 wRun5 rfl,
   by decide,
   C7_stdout_single_url_line.2.2 wFs "/app" "/data/a.fits" false 5 5000 7070 wRun5
     (by decide) rfl⟩

/-- Claim C8: on successful startup with a positive timeout, the one-shot
background task calls shutdown after exactly that many seconds from server
start; with timeout 0 no shutdown is ever scheduled. -/
theorem C8_timeout_schedules_one_shot_shutdown
    (fs : FS) (d f : String) (o : Bool) (t : Int) (p osp : Nat) (run : RunningServer)
    (h : run_server fs d f o t p osp = Except.ok run) :
    (0 < t → run.shutdown_after = some t) ∧ (t = 0 → run.shutdown_after = none) := by
  rw [run_server] at h
  cases hfs : fs (pathJoin d "Masking.html") <;> rw [hfs] at h
  · cases h
  · cases h
    constructor
    · intro ht; simp [if_pos ht]
    · intro ht; subst ht; simp
  · cases h
    constructor
    · intro ht; simp [if_pos ht]
    · intro ht; subst ht; simp

/-- Witness for C8 on a concrete startup with timeout 5. -/
theorem C8_witness :
    run_server wFs "/app" "/data/a.fits" false 5 7070 5000 = Except.ok wRun5 ∧
    (0 : Int) < 5 ∧ wRun5.shutdown_after = some 5 :=
  ⟨rfl, by decide,
   (C8_timeout_schedules_one_shot_shutdown wFs "/app" "/data/a.fits" false 5 7070 5000 wRun5
     rfl).1 (by decide)⟩

/-- Claim C9: every successful startup — any port, any configuration —
binds the listening socket to the loopback address `127.0.0.1` only. -/
theorem C9_binds_loopback_only
    (fs : FS) (d f : String) (o : Bool) (t : Int) (p osp : Nat) (run : RunningServer)
    (h : run_server fs d f o t p osp = Except.ok run) :
    run.bound_host = "127.0.0.1" := by
  rw [run_server] at h
  cases hfs : fs (pathJoin d "Masking.html") <;> rw [hfs] at h
  · cases h
  · cases h; rfl
  · cases h; rfl

/-- Witness for C9 on a concrete startup. -/
theorem C9_witness :
    run_server wFs "/app" "/data/a.fits" false 5 7070 5000 = Except.ok wRun5 ∧
    wRun5.bound_host = "127.0.0.1" :=
  ⟨rfl,
   C9_binds_loopback_only wFs "/app" "/data/a.fits" false 5 7070 5000 wRun5 rfl⟩

/-- Claim C10: the handler class implements only GET, so any other method
is answered by the base class with a 501 error and no resource handler
runs. -/
theorem C10_non_get_methods_501 (srv : ServerState) (fs : FS) (method target : String)
    (h : method ≠ "GET") :
    handle_one_request srv fs method target
      = sendError 501 ("Unsupported method (" ++ method ++ ")") := by
  simp [handle_one_request, h]

/-- Witness for C10: a POST to `/file` is answered 501. -/
theorem C10_witness :
    ("POST" : String) ≠ "GET" ∧
    handle_one_request wSrv wFs "POST" "/file"
      = sendError 501 ("Unsupported method (" ++ "POST" ++ ")") :=
  ⟨by decide, C10_non_get_methods_501 wSrv wFs "POST" "/file" (by decide)⟩

end MaskingServer
